import Mathlib

/-!
Verification of the regelum-control numeric-backend, system-composition and
simulator core against its natural-language specification.

The Lean definitions below are shallow embeddings of the Python source:

* `RCType`, `is_CasADi_typecheck`, `is_Torch_typecheck`, `type_inference`
  embed `regelum/__utilities.py` lines 38-78.  A runtime value is modelled by
  the backend tag that `isinstance` probing would assign to it
  (`TORCH` = Differentiable, `CASADI` = Symbolic, `NUMPY` = Concrete).
* `Arr2`, `force_row`, `force_column` embed the shape-handling part of
  `RCTypeHandler` (`regelum/__utilities.py` lines 542-562); an `Arr2` is a
  2-D array in row-major order, which is exactly what the NumPy/Torch branch
  `reshape(1, -1)` / `reshape(-1, 1)` manipulates.
* `SystemState`, `System.init`, `System.update_system_parameters`,
  `System.reset` embed `regelum/system.py` lines 295-447.  A Python dict is
  modelled as an insertion-ordered association list (`dictSet`/`dictUpdate`
  reproduce `dict.update`).
* `Sys`, `ComposedSys`, `get_routing`, `ComposedSystem.init`,
  `ComposedSystem.build`, the observation function, `permute_state`,
  `get_inverse_permutation` embed `regelum/system.py` lines 21-292.  Vectors
  are `List ℚ` (the value content of the row/column arrays; `rc.squeeze`,
  `force_row`, `force_column` and value-preserving `rc.reshape` are the
  identity on this representation); numpy fancy indexed assignment
  `a[idx] = vals` is `scatter` and fancy read `a[idx]` is `gather`.
* `SolverState`, `CasADiSolver.step`, `SimState`, `Simulator.do_sim_step`,
  `Simulator.reset` embed `regelum/simulator.py` lines 35-268.  A raised
  `RuntimeError` is the `Except.error` case; the integrator object built by
  `casadi.integrator` is abstracted as a function argument
  `integr : List ℚ → List ℚ → List ℚ` (state, inputs ↦ next state).
-/

/-! ## Numeric backend dispatch (`regelum/__utilities.py` lines 38-78) -/

/-- Backend tags of `regelum/__utilities.py` (`RCType(IntEnum)`):
`TORCH` = 3 (Differentiable), `CASADI` = 2 (Symbolic), `NUMPY` = 1 (Concrete). -/
inductive RCType
  | NUMPY
  | CASADI
  | TORCH
deriving DecidableEq, Repr

/-- The numeric value of the `RCType` IntEnum member. -/
def RCType.priority : RCType → ℕ
  | .TORCH => 3
  | .CASADI => 2
  | .NUMPY => 1

/-- `is_CasADi_typecheck(*args)`: returns `CASADI` (numeric value 2) if any
argument is a CasADi value, else `False` (numeric value 0). -/
def is_CasADi_typecheck (args : List RCType) : ℕ :=
  if args.any (fun a => a == RCType.CASADI) then 2 else 0

/-- `is_Torch_typecheck(*args)`: returns `TORCH` (numeric value 3) if any
argument is a Torch value, else `False` (numeric value 0). -/
def is_Torch_typecheck (args : List RCType) : ℕ :=
  if args.any (fun a => a == RCType.TORCH) then 3 else 0

/-- `type_inference(*args, **kwargs)` of `regelum/__utilities.py`
lines 69-78: raises `TypeError` when `is_CasADi + is_Torch > 4`
(which happens exactly when both a CasADi and a Torch operand are present),
otherwise returns `max(is_CasADi, is_Torch, NUMPY)`. -/
def type_inference (args : List RCType) : Except String ℕ :=
  let is_CasADi := is_CasADi_typecheck args
  let is_Torch := is_Torch_typecheck args
  if is_CasADi + is_Torch > 4 then
    Except.error "There is no support for simultaneous usage of both NumPy and CasADi"
  else
    Except.ok (max is_CasADi (max is_Torch 1))

/-! ## 2-D arrays and `force_row` / `force_column`
(`regelum/__utilities.py` lines 542-562) -/

/-- A 2-D array: shape `(rows, cols)` with the entries flattened in
row-major order (the layout NumPy/Torch `reshape` preserves). -/
structure Arr2 where
  rows : ℕ
  cols : ℕ
  data : List ℚ
deriving DecidableEq, Repr

/-- Matrix transpose (CasADi `.T`): entry `(j, i)` of the result is entry
`(i, j)` of the argument. -/
def Arr2.transpose (a : Arr2) : Arr2 :=
  { rows := a.cols, cols := a.rows,
    data := (List.range a.cols).flatMap (fun j =>
      (List.range a.rows).map (fun i => a.data.getD (i * a.cols + j) 0)) }

/-- `RCTypeHandler.force_column` (lines 542-551): for the CasADi backend,
transpose a wide `1 × n` array, otherwise return it unchanged; for the
NumPy/Torch backends, `argin.reshape(-1, 1)` (row-major flatten into an
`n × 1` column). -/
def force_column (argin : Arr2) (rc_type : RCType) : Arr2 :=
  if rc_type = RCType.CASADI then
    if argin.cols > argin.rows ∧ argin.rows = 1 then argin.transpose else argin
  else
    { rows := argin.data.length, cols := 1, data := argin.data }

/-- `RCTypeHandler.force_row` (lines 553-562): for the CasADi backend,
transpose a tall `n × 1` array, otherwise return it unchanged; for the
NumPy/Torch backends, `argin.reshape(1, -1)`. -/
def force_row (argin : Arr2) (rc_type : RCType) : Arr2 :=
  if rc_type = RCType.CASADI then
    if argin.rows > argin.cols ∧ argin.cols = 1 then argin.transpose else argin
  else
    { rows := 1, cols := argin.data.length, data := argin.data }

/-! ## Parameter dictionaries

A Python `dict` with string keys and numeric values is modelled as an
insertion-ordered association list.  `dictSet` is a single-key assignment
`d[k] = v` (existing keys keep their position, new keys are appended) and
`dictUpdate` is `d.update(patch)`; `dictUpdate d patch` is also `d | patch`. -/

/-- Parameter mapping of a system: name ↦ value. -/
abbrev Params : Type := List (String × ℚ)

/-- `d[k] = v` on an insertion-ordered dict. -/
def dictSet (d : Params) (k : String) (v : ℚ) : Params :=
  if d.any (fun kv => kv.1 == k) then
    d.map (fun kv => if kv.1 == k then (k, v) else kv)
  else
    d ++ [(k, v)]

/-- `d.update(patch)`: assign every key of `patch` into `d`, in order. -/
def dictUpdate (d patch : Params) : Params :=
  patch.foldl (fun acc kv => dictSet acc kv.1 kv.2) d

/-- `d[k]`, returning 0 for a missing key (all modelled reads hit present
keys, so the default never matters). -/
def dictGet (d : Params) (k : String) : ℚ :=
  ((d.find? (fun kv => kv.1 == k)).map (fun kv => kv.2)).getD 0

/-! ## Gather / scatter on vectors

`gather xs idx` is numpy fancy read `xs[idx]`; `scatter base idx vals` is
numpy fancy assignment `base[idx] = vals`: positions are written one by one
in index order, so with duplicate indices the last write wins. -/

/-- Fancy read `xs[idx]` (out-of-range reads never occur in the modelled
code; `getD` defaults them to 0). -/
def gather (xs : List ℚ) (idx : List ℕ) : List ℚ :=
  idx.map (fun i => xs.getD i 0)

/-- Fancy assignment `base[idx] = vals`, elementwise left to right. -/
def scatter {α : Type} : List α → List ℕ → List α → List α
  | base, [], _ => base
  | base, _ :: _, [] => base
  | base, i :: is, v :: vs => scatter (base.set i v) is vs

/-! ## Atomic `System` (`regelum/system.py` lines 295-447)

The mutable state of a `System` instance is its parameter dict, its `state`
and its `inputs`.  Crucially, `System.__init__` ends with
`self.system_parameters_init = self._parameters`, which binds
`system_parameters_init` to the *same dict object* as `_parameters` (no
copy).  Therefore `reset()`, which runs
`self.update_system_parameters(self.system_parameters_init)`, updates the
parameter dict with itself; the embedding reproduces this aliasing by making
`System.reset` update `parameters` with the current `parameters`. -/

/-- Mutable state of an atomic `System` instance. -/
structure SystemState where
  parameters : Params
  state : List ℚ
  inputs : List ℚ
deriving DecidableEq

namespace System

/-- `System.__init__`: merge the explicit overrides into the class-level
parameter dict (only when the override dict is non-empty, mirroring
`if system_parameters_init:`), and fill `state`/`inputs` with zeros when no
initial value is given.  `system_parameters_init` is not stored separately:
the source stores an alias of `_parameters`. -/
def init (class_parameters system_parameters_init : Params)
    (state_init inputs_init : Option (List ℚ)) (dim_state dim_inputs : ℕ) :
    SystemState :=
  { parameters :=
      if system_parameters_init.isEmpty then class_parameters
      else dictUpdate class_parameters system_parameters_init,
    state := state_init.getD (List.replicate dim_state 0),
    inputs := inputs_init.getD (List.replicate dim_inputs 0) }

/-- `System.update_system_parameters(inputs)`: `self._parameters.update(inputs)`. -/
def update_system_parameters (s : SystemState) (patch : Params) : SystemState :=
  { s with parameters := dictUpdate s.parameters patch }

/-- `System.reset()`: `self.update_system_parameters(self.system_parameters_init)`
where `self.system_parameters_init` is the same dict object as
`self._parameters` (aliased in `__init__`), i.e. the *current* parameters. -/
def reset (s : SystemState) : SystemState :=
  update_system_parameters s s.parameters

end System

/-! ## The capability interface shared by systems

A `Sys` packages exactly what `ComposedSystem` reads from each wrapped
system: the dimension contract, the parameter dict, and the two functions
`compute_state_dynamics` / `get_observation` (in native-dimension mode, on
the value content of the vectors).  For source systems whose methods read
mutable instance fields, those fields are parameters of the embedding. -/

/-- A system as seen through the shared System/ComposedSystem surface. -/
structure Sys where
  name : String
  system_type : String
  dim_state : ℕ
  dim_inputs : ℕ
  dim_observation : ℕ
  parameters : Params
  compute_state_dynamics : ℚ → List ℚ → List ℚ → List ℚ
  get_observation : ℚ → List ℚ → List ℚ → List ℚ

/-- `KinematicPoint` (`regelum/system.py` lines 450-468): dimensions 2/2/2,
`Dstate = zeros(dim_state)`, then `Dstate[i] = inputs[i]` for
`i in range(shape(inputs)[0])`; observation is the default (the state). -/
def KinematicPoint : Sys :=
  { name := "kinematic-point",
    system_type := "diff_eqn",
    dim_state := 2,
    dim_inputs := 2,
    dim_observation := 2,
    parameters := [],
    compute_state_dynamics := fun _time _state inputs =>
      scatter (List.replicate 2 (0 : ℚ)) (List.range inputs.length) inputs,
    get_observation := fun _time state _inputs => state }

/-- `InvertedPendulumPID` (`regelum/system.py` lines 471-513): dimensions
2/1/3, parameters `m=1, g=9.8, l=1`.  The mutable instance fields
`time_old` and `integral_alpha` (set to 0 in `__init__`, reset by
`reset()`) are parameters of the embedding, as is the transcendental
primitive `rc.sin`.  `_get_observation` computes
`delta_time = time - time_old`, adds `delta_time * state[0]` to the
integral, and returns `[state[0], integral_alpha, state[1]]`. -/
def InvertedPendulumPID (sin_fn : ℚ → ℚ) (time_old integral_alpha : ℚ) : Sys :=
  let params : Params := [("m", 1), ("g", 49/5), ("l", 1)]
  { name := "inverted-pendulum",
    system_type := "diff_eqn",
    dim_state := 2,
    dim_inputs := 1,
    dim_observation := 3,
    parameters := params,
    compute_state_dynamics := fun _time state inputs =>
      let m := dictGet params "m"
      let g := dictGet params "g"
      let l := dictGet params "l"
      [state.getD 1 0,
       g / l * sin_fn (state.getD 0 0) + inputs.getD 0 0 / (m * l ^ 2)],
    get_observation := fun time state _inputs =>
      let delta_time := time - time_old
      let new_integral_alpha := integral_alpha + delta_time * state.getD 0 0
      [state.getD 0 0, new_integral_alpha, state.getD 1 0] }

/-! ## `ComposedSystem` (`regelum/system.py` lines 21-292) -/

/-- One entry of `io_mapping`: a single right-input index or a tuple of
right-input indices (fan-out).  (A `None` entry would in fact fail the
`type(outputs) in [tuple, int, ...]` assertion in `__get_routing`, since
`type(None)` is `NoneType`, which is not in that list; `None` entries are
therefore excluded from the model.) -/
inductive IOEntry
  | int (n : ℕ)
  | tup (ns : List ℕ)
deriving DecidableEq, Repr

/-- Stable insertion (after existing equal keys) used to model Python's
stable `sorted(..., key=lambda x: x[1])`. -/
def insertPair (x : ℕ × ℕ) : List (ℕ × ℕ) → List (ℕ × ℕ)
  | [] => [x]
  | y :: rest => if y.2 ≤ x.2 then y :: insertPair x rest else x :: y :: rest

/-- Stable sort of `(left_output, right_input)` pairs by right-input index. -/
def sortPairsByRight (l : List (ℕ × ℕ)) : List (ℕ × ℕ) :=
  l.foldl (fun acc x => insertPair x acc) []

/-- `ComposedSystem.__get_routing(io_mapping)` (lines 88-112): flatten each
entry `i ↦ outputs` into pairs `(i, output)`, sort by the right-input index,
and return the columns `(rout_idx, occupied_idx)`.  There is no check
against duplicate right-input indices. -/
def get_routing (io_mapping : List IOEntry) : List ℕ × List ℕ :=
  let io_mapping_extended := io_mapping.enum.flatMap (fun ie =>
    match ie.2 with
    | IOEntry.int n => [(ie.1, n)]
    | IOEntry.tup ns => ns.map (fun n => (ie.1, n)))
  let sorted := sortPairsByRight io_mapping_extended
  (sorted.map Prod.fst, sorted.map Prod.snd)

/-- The fields of a `ComposedSystem` instance set by `__init__` (lines
27-86) plus the permutation pair (re-assigned by `permute_state`). -/
structure ComposedSys where
  sys_left : Sys
  sys_right : Sys
  system_type : String
  parameters : Params
  dim_state : ℕ
  dim_observation : ℕ
  rout_idx : List ℕ
  occupied_idx : List ℕ
  dim_inputs : ℤ
  name : String
  free_right_input_indices : List ℕ
  output_mode : String
  forward_permutation : List ℕ
  inverse_permutation : List ℕ

namespace ComposedSystem

/-- The record `ComposedSystem.__init__` builds once its assertions have
passed (lines 45-86): default `io_mapping = arange(min(left.dim_state,
right.dim_inputs))`; `system_type` is `diff_eqn` if either side is;
`parameters = left.parameters | right.parameters`;
`dim_state = right.dim_state + left.dim_state`; `dim_observation` by
`output_mode`; routing via `__get_routing`;
`dim_inputs = right.dim_inputs + left.dim_inputs - len(occupied_idx)`;
`free_right_input_indices = setdiff1d(arange(right.dim_inputs),
occupied_idx)`; both permutations start as `arange(dim_observation)`. -/
def build (sys_left sys_right : Sys) (io_mapping : Option (List IOEntry))
    (output_mode : String) : ComposedSys :=
  let io := io_mapping.getD
    ((List.range (min sys_left.dim_state sys_right.dim_inputs)).map IOEntry.int)
  let routing := get_routing io
  let dim_observation :=
    if output_mode = "state" then sys_left.dim_state + sys_right.dim_state
    else if output_mode = "right" then sys_right.dim_observation
    else sys_left.dim_observation + sys_right.dim_observation
  { sys_left := sys_left,
    sys_right := sys_right,
    system_type :=
      if sys_left.system_type = "diff_eqn" ∨ sys_right.system_type = "diff_eqn"
      then "diff_eqn" else sys_right.system_type,
    parameters := dictUpdate sys_left.parameters sys_right.parameters,
    dim_state := sys_right.dim_state + sys_left.dim_state,
    dim_observation := dim_observation,
    rout_idx := routing.1,
    occupied_idx := routing.2,
    dim_inputs := (sys_right.dim_inputs : ℤ) + (sys_left.dim_inputs : ℤ)
      - (routing.2.length : ℤ),
    name := sys_left.name ++ " + " ++ sys_right.name,
    free_right_input_indices :=
      (List.range sys_right.dim_inputs).filter (fun i => !(routing.2.contains i)),
    output_mode := output_mode,
    forward_permutation := List.range dim_observation,
    inverse_permutation := List.range dim_observation }

/-- `ComposedSystem.__init__` with its `assert output_mode in ["state",
"right", "both"]`; an `AssertionError` is the `Except.error` case.  The
entry-type assertion of `__get_routing` always passes for `IOEntry` values,
and no other construction-time check exists — in particular nothing
examines `occupied_idx` for duplicates. -/
def init (sys_left sys_right : Sys) (io_mapping : Option (List IOEntry))
    (output_mode : String) : Except String ComposedSys :=
  if output_mode = "state" ∨ output_mode = "right" ∨ output_mode = "both" then
    Except.ok (build sys_left sys_right io_mapping output_mode)
  else
    Except.error "output_mode must be state, right or both"

/-- The routed right-system input vector shared by `_compute_state_dynamics`
(lines 171-179) and `_get_observation` (lines 217-225): a zero vector of
length `right.dim_inputs`, with the left observation scattered into the
occupied positions (`inputs_for_right[occupied_idx] =
outputs_of_left[rout_idx]`) and the remaining composed-system inputs
scattered into the free positions. -/
def inputs_for_right (c : ComposedSys) (outputs_of_left : List ℚ)
    (inputs : List ℚ) : List ℚ :=
  scatter
    (scatter (List.replicate c.sys_right.dim_inputs (0 : ℚ))
      c.occupied_idx (gather outputs_of_left c.rout_idx))
    c.free_right_input_indices
    (inputs.drop c.sys_left.dim_inputs)

/-- `ComposedSystem._get_observation` (lines 199-243), on the value content
of the vectors: split the state at `left.dim_state`, compute the left
observation, build the routed right input, compute the right observation,
then select the output by `output_mode` — `"right"` returns the right
observation, `"state"` returns the incoming state, `"both"` returns
`concatenate((state_for_left, state_for_right))`, anything else raises
`NotImplementedError`.  (No permutation is applied here, unlike
`_compute_state_dynamics`.) -/
def observation (c : ComposedSys) (time : ℚ) (state inputs : List ℚ) :
    Except String (List ℚ) :=
  let state_for_left := state.take c.sys_left.dim_state
  let state_for_right := state.drop c.sys_left.dim_state
  let inputs_for_left := inputs.take c.sys_left.dim_inputs
  let outputs_of_left := c.sys_left.get_observation time state_for_left inputs_for_left
  let routed := inputs_for_right c outputs_of_left inputs
  let outputs_of_right := c.sys_right.get_observation time state_for_right routed
  if c.output_mode = "right" then Except.ok outputs_of_right
  else if c.output_mode = "state" then Except.ok state
  else if c.output_mode = "both" then Except.ok (state_for_left ++ state_for_right)
  else Except.error "NotImplementedError"

/-- `ComposedSystem.reset` (lines 264-265): `pass`. -/
def reset (c : ComposedSys) : ComposedSys := c

/-- `ComposedSystem.get_inverse_permutation` (lines 279-284):
`inverse_permutation = empty_like(permutation);
inverse_permutation[permutation] = arange(permutation.size)`.  The
uninitialized `empty_like` buffer is modelled as zeros (every position of a
genuine permutation is overwritten). -/
def get_inverse_permutation (permutation : List ℕ) : List ℕ :=
  scatter (List.replicate permutation.length 0) permutation
    (List.range permutation.length)

/-- `ComposedSystem.permute_state` (lines 267-277): store the permutation as
`forward_permutation` and its scatter-computed inverse as
`inverse_permutation`. -/
def permute_state (c : ComposedSys) (permutation : List ℕ) : ComposedSys :=
  { c with forward_permutation := permutation,
           inverse_permutation := get_inverse_permutation permutation }

end ComposedSystem

/-! ## Simulator (`regelum/simulator.py` lines 35-268) -/

/-- The fields of `CasADi.CasADiSolver` (lines 189-247).  The wrapped
`casadi.integrator` object is not stored: it is passed to `step` as a
function. -/
structure SolverState where
  time_start : ℚ
  time_final : ℚ
  step_size : ℚ
  time : ℚ
  state_init : List ℚ
  state : List ℚ
  action : List ℚ
deriving DecidableEq

/-- `CasADiSolver.step` (lines 231-239): raise
`RuntimeError("An attempt to step with a finished solver")` when
`time >= time_final`; otherwise set the state to
`integrator(x0=state, p=system.inputs)["xf"]` and advance time by one
step size. -/
def CasADiSolver.step (integr : List ℚ → List ℚ → List ℚ) (p : List ℚ)
    (s : SolverState) : Except String SolverState :=
  if s.time ≥ s.time_final then
    Except.error "An attempt to step with a finished solver"
  else
    Except.ok { s with state := integr s.state p, time := s.time + s.step_size }

/-- The fields of a `Simulator` instance that `do_sim_step`/`reset` touch
(lines 38-164).  `sysInputs` is `self.system.inputs` and `observe` is
`self.system.get_observation` (the wrapped system's parameter dict, on
which `self.system.reset()` acts, is not carried here: by
`System.reset`/`ComposedSystem.reset` above it is left unchanged anyway,
and the observation in `reset` is computed before `self.system.reset()`
runs). -/
structure SimState where
  system_type : String
  sysInputs : List ℚ
  observe : ℚ → List ℚ → List ℚ → List ℚ
  time_start : ℚ
  time_final : ℚ
  max_step : ℚ
  state_init : List ℚ
  action_init : List ℚ
  time : ℚ
  state : List ℚ
  observation : List ℚ
  solver : SolverState

namespace Simulator

/-- `CasADi.initialize_ode_solver` (lines 249-268): rebuild the integrator
and wrap it in a fresh `CasADiSolver(integrator, time_start, time_final,
max_step, state_init, action_init, system)`, whose `__init__` starts the
clock at `time_start` and the state at `state_init`. -/
def make_ode_solver (sim : SimState) : SolverState :=
  { time_start := sim.time_start,
    time_final := sim.time_final,
    step_size := sim.max_step,
    time := sim.time_start,
    state_init := sim.state_init,
    state := sim.state_init,
    action := sim.action_init }

/-- `Simulator.reset` (lines 136-149): for a `diff_eqn` system, rebuild the
ODE solver, restore `time`/`state` to `time_start`/`state_init`, recompute
the observation at the initial point, and call the wrapped system's
`reset()`; otherwise only restore `time` and recompute the observation. -/
def reset (sim : SimState) : SimState :=
  if sim.system_type = "diff_eqn" then
    { sim with solver := make_ode_solver sim,
               time := sim.time_start,
               state := sim.state_init,
               observation := sim.observe sim.time_start sim.state_init sim.action_init }
  else
    { sim with time := sim.time_start,
               observation := sim.observe sim.time_start sim.state_init sim.sysInputs }

/-- `Simulator.do_sim_step` (lines 115-130): for a `diff_eqn` system, try one
solver step; on `RuntimeError` call `self.reset()` and return `-1`;
otherwise copy the solver's time and state and recompute the observation
(an ordinary completion returns `None`).  A non-`diff_eqn` system raises
`ValueError`. -/
def do_sim_step (integr : List ℚ → List ℚ → List ℚ) (sim : SimState) :
    Except String (SimState × Option ℤ) :=
  if sim.system_type = "diff_eqn" then
    match CasADiSolver.step integr sim.sysInputs sim.solver with
    | Except.error _ => Except.ok (reset sim, some (-1))
    | Except.ok solver2 =>
        Except.ok
          ({ sim with solver := solver2,
                      time := solver2.time,
                      state := solver2.state,
                      observation := sim.observe solver2.time solver2.state sim.sysInputs },
           none)
  else
    Except.error "Invalid system description"

end Simulator

/-! ## Concrete instances used as witness inputs -/

/-- A trivial compiled integrator (keeps the state) used as witness input. -/
def integrExample : List ℚ → List ℚ → List ℚ := fun state _ => state

/-- A CasADi solver whose clock has reached `time_final`. -/
def solverFinished : SolverState :=
  { time_start := 0, time_final := 1, step_size := 1/10, time := 1,
    state_init := [0, 0], state := [0, 0], action := [0, 0] }

/-- A CasADi solver whose clock has passed `time_final`. -/
def solverPastFinal : SolverState :=
  { time_start := 0, time_final := 1, step_size := 1/10, time := 2,
    state_init := [0, 0], state := [3, 4], action := [0, 0] }

/-- A `diff_eqn` simulator at the end of its episode (`solver.time = time_final`). -/
def simExample : SimState :=
  { system_type := "diff_eqn", sysInputs := [0, 0],
    observe := fun _ state _ => state,
    time_start := 0, time_final := 1, max_step := 1/10,
    state_init := [0, 0], action_init := [0, 0],
    time := 1, state := [0, 0], observation := [0, 0],
    solver := solverFinished }

/-- A `diff_eqn` simulator whose solver clock has passed `time_final`. -/
def simExample2 : SimState :=
  { system_type := "diff_eqn", sysInputs := [0, 0],
    observe := fun _ state _ => state,
    time_start := 0, time_final := 1, max_step := 1/10,
    state_init := [0, 0], action_init := [0, 0],
    time := 2, state := [3, 4], observation := [3, 4],
    solver := solverPastFinal }

/-! # Theorems -/

/-! ## C1: backend dispatch priority and the Differentiable/Symbolic clash -/

/-- C1: For every `type_inference` dispatch over a nonempty operand list, if a
Symbolic (CasADi) and a Differentiable (Torch) operand co-occur the dispatch
raises `TypeError`; otherwise the result is the numeric priority of a
highest-priority operand (Differentiable 3 > Symbolic 2 > Concrete 1). -/
theorem type_inference_priority (args : List RCType) (hne : args ≠ []) :
    ((RCType.CASADI ∈ args ∧ RCType.TORCH ∈ args) →
      type_inference args =
        Except.error "There is no support for simultaneous usage of both NumPy and CasADi")
    ∧ (¬(RCType.CASADI ∈ args ∧ RCType.TORCH ∈ args) →
      ∃ b, b ∈ args ∧ type_inference args = Except.ok (RCType.priority b)
        ∧ ∀ x ∈ args, RCType.priority x ≤ RCType.priority b) := by
  constructor
  · rintro ⟨hc, ht⟩
    have hc2 : is_CasADi_typecheck args = 2 := by
      simp [is_CasADi_typecheck, List.any_eq_true]
      exact hc
    have ht3 : is_Torch_typecheck args = 3 := by
      simp [is_Torch_typecheck, List.any_eq_true]
      exact ht
    simp [type_inference, hc2, ht3]
  · intro hnot
    by_cases ht : RCType.TORCH ∈ args
    · have hc : RCType.CASADI ∉ args := fun hc => hnot ⟨hc, ht⟩
      have hc0 : is_CasADi_typecheck args = 0 := by
        simp [is_CasADi_typecheck, List.any_eq_true]
        exact hc
      have ht3 : is_Torch_typecheck args = 3 := by
        simp [is_Torch_typecheck, List.any_eq_true]
        exact ht
      refine ⟨RCType.TORCH, ht, ?_, ?_⟩
      · simp [type_inference, hc0, ht3, RCType.priority]
      · intro x _
        cases x <;> simp [RCType.priority]
    · by_cases hc : RCType.CASADI ∈ args
      · have hc2 : is_CasADi_typecheck args = 2 := by
          simp [is_CasADi_typecheck, List.any_eq_true]
          exact hc
        have ht0 : is_Torch_typecheck args = 0 := by
          simp [is_Torch_typecheck, List.any_eq_true]
          exact ht
        refine ⟨RCType.CASADI, hc, ?_, ?_⟩
        · simp [type_inference, hc2, ht0, RCType.priority]
        · intro x hx
          cases x with
          | NUMPY => simp [RCType.priority]
          | CASADI => simp [RCType.priority]
          | TORCH => exact absurd hx ht
      · -- all operands are Concrete
        have hc0 : is_CasADi_typecheck args = 0 := by
          simp [is_CasADi_typecheck, List.any_eq_true]
          exact hc
        have ht0 : is_Torch_typecheck args = 0 := by
          simp [is_Torch_typecheck, List.any_eq_true]
          exact ht
        obtain ⟨b, hb⟩ := List.exists_mem_of_ne_nil args hne
        have hbn : b = RCType.NUMPY := by
          cases b with
          | NUMPY => rfl
          | CASADI => exact absurd hb hc
          | TORCH => exact absurd hb ht
        refine ⟨b, hb, ?_, ?_⟩
        · simp [type_inference, hc0, ht0, hbn, RCType.priority]
        · intro x hx
          have hxn : x = RCType.NUMPY := by
            cases x with
            | NUMPY => rfl
            | CASADI => exact absurd hx hc
            | TORCH => exact absurd hx ht
          simp [hxn, hbn]

/-- Witness for C1 at the concrete operand list of the claim:
one Concrete and one Differentiable operand infer a Differentiable result. -/
theorem type_inference_priority_witness :
    ([RCType.NUMPY, RCType.TORCH] ≠ ([] : List RCType))
    ∧ (((RCType.CASADI ∈ [RCType.NUMPY, RCType.TORCH]
          ∧ RCType.TORCH ∈ [RCType.NUMPY, RCType.TORCH]) →
        type_inference [RCType.NUMPY, RCType.TORCH] =
          Except.error "There is no support for simultaneous usage of both NumPy and CasADi")
      ∧ (¬(RCType.CASADI ∈ [RCType.NUMPY, RCType.TORCH]
            ∧ RCType.TORCH ∈ [RCType.NUMPY, RCType.TORCH]) →
        ∃ b, b ∈ [RCType.NUMPY, RCType.TORCH]
          ∧ type_inference [RCType.NUMPY, RCType.TORCH] = Except.ok (RCType.priority b)
          ∧ ∀ x ∈ [RCType.NUMPY, RCType.TORCH], RCType.priority x ≤ RCType.priority b)) :=
  ⟨by decide, type_inference_priority [RCType.NUMPY, RCType.TORCH] (by decide)⟩

/-! ## C2: `System.reset()` does NOT restore the construction-time snapshot -/

/-- C2 (code_bug evidence): patching `m` from 1 to 5 and then calling
`reset()` leaves the parameters at the patched value 5; the
construction-time value was 1, so `reset()` does not restore the
construction-time snapshot. -/
theorem reset_keeps_patched_parameters :
    (System.reset (System.update_system_parameters
        (System.init [("m", 1)] [] none none 2 2) [("m", 5)])).parameters
      = [("m", 5)]
    ∧ (System.init [("m", 1)] [] none none 2 2).parameters = [("m", 1)] := by
  constructor <;> rfl

/-! ## C3: duplicate right-input routing is accepted, not rejected -/

/-- C3 counterexample: constructing a `ComposedSystem` with
`io_mapping=[(0,0),(1,0)]` (which routes several left outputs to right
input 0) raises no error at construction time — there is no duplicate
check in `__get_routing` or `__init__`. -/
theorem duplicate_routing_no_error :
    (ComposedSystem.init KinematicPoint KinematicPoint
        (some [IOEntry.tup [0, 0], IOEntry.tup [1, 0]]) "right").isOk = true := rfl

/-- C3 amended: constructing with `io_mapping=[(0,0),(1,0)]` succeeds; the
flattened pairs are sorted by right-input index into
`rout_idx = [0,0,1,1]`, `occupied_idx = [0,0,0,1]`, and the duplicate
occupied indices are silently kept. -/
theorem duplicate_routing_accepted :
    ComposedSystem.init KinematicPoint KinematicPoint
        (some [IOEntry.tup [0, 0], IOEntry.tup [1, 0]]) "right"
      = Except.ok (ComposedSystem.build KinematicPoint KinematicPoint
          (some [IOEntry.tup [0, 0], IOEntry.tup [1, 0]]) "right")
    ∧ (ComposedSystem.build KinematicPoint KinematicPoint
        (some [IOEntry.tup [0, 0], IOEntry.tup [1, 0]]) "right").occupied_idx
      = [0, 0, 0, 1]
    ∧ (ComposedSystem.build KinematicPoint KinematicPoint
        (some [IOEntry.tup [0, 0], IOEntry.tup [1, 0]]) "right").rout_idx
      = [0, 0, 1, 1]
    ∧ ¬ (ComposedSystem.build KinematicPoint KinematicPoint
        (some [IOEntry.tup [0, 0], IOEntry.tup [1, 0]]) "right").occupied_idx.Nodup :=
  ⟨rfl, rfl, rfl, by decide⟩

/-! ## C4: `output_mode="both"` returns the raw state, not the
concatenated observations -/

/-- C4 (code_bug evidence): for the composition of an `InvertedPendulumPID`
(whose observation `[state[0], integral_alpha, state[1]]` has dimension 3,
different from its state) with a `KinematicPoint`, in `output_mode="both"`
`_get_observation` returns the raw composed state `[2,3,5,7]`
(`concatenate((state_for_left, state_for_right))`), while the concatenation
of the left and right observations is `[2,2,3,5,7]`; the declared
`dim_observation` is 5 but the returned vector has length 4. -/
theorem both_mode_returns_state_not_observations :
    ComposedSystem.observation (ComposedSystem.build (InvertedPendulumPID (fun _ => 0) 0 0)
        KinematicPoint (some [IOEntry.int 0]) "both") 1 [2, 3, 5, 7] [1, 1]
      = Except.ok [2, 3, 5, 7]
    ∧ ComposedSystem.inputs_for_right (ComposedSystem.build (InvertedPendulumPID (fun _ => 0) 0 0)
        KinematicPoint (some [IOEntry.int 0]) "both")
        ((InvertedPendulumPID (fun _ => 0) 0 0).get_observation 1 [2, 3] [1]) [1, 1]
      = [2, 1]
    ∧ ((InvertedPendulumPID (fun _ => 0) 0 0).get_observation 1 [2, 3] [1]
        ++ KinematicPoint.get_observation 1 [5, 7] [2, 1]) = [2, 2, 3, 5, 7]
    ∧ ([2, 3, 5, 7] : List ℚ) ≠ [2, 2, 3, 5, 7]
    ∧ (ComposedSystem.build (InvertedPendulumPID (fun _ => 0) 0 0)
        KinematicPoint (some [IOEntry.int 0]) "both").dim_observation = 5
    ∧ ([2, 3, 5, 7] : List ℚ).length = 4 := by
  refine ⟨rfl, rfl, ?_, by decide, rfl, rfl⟩
  simp [InvertedPendulumPID, KinematicPoint]

/-! ## C8: derived dimensions of a composition -/

/-- C8: every successfully constructed `ComposedSystem` satisfies
`dim_state = left.dim_state + right.dim_state` and
`dim_inputs = left.dim_inputs + right.dim_inputs - len(occupied_idx)`. -/
theorem composed_dims (l r : Sys) (io : Option (List IOEntry)) (m : String)
    (c : ComposedSys) (h : ComposedSystem.init l r io m = Except.ok c) :
    c.dim_state = l.dim_state + r.dim_state
    ∧ c.dim_inputs = (l.dim_inputs : ℤ) + (r.dim_inputs : ℤ)
        - (c.occupied_idx.length : ℤ) := by
  unfold ComposedSystem.init at h
  split at h
  · injection h with h
    subst h
    constructor
    · simp [ComposedSystem.build, Nat.add_comm]
    · simp [ComposedSystem.build]
      ring
  · cases h

/-- Witness for C8 at the composition of two kinematic points with the
default routing. -/
theorem composed_dims_witness :
    (ComposedSystem.init KinematicPoint KinematicPoint none "right"
      = Except.ok (ComposedSystem.build KinematicPoint KinematicPoint none "right"))
    ∧ ((ComposedSystem.build KinematicPoint KinematicPoint none "right").dim_state
        = KinematicPoint.dim_state + KinematicPoint.dim_state
      ∧ (ComposedSystem.build KinematicPoint KinematicPoint none "right").dim_inputs
        = (KinematicPoint.dim_inputs : ℤ) + (KinematicPoint.dim_inputs : ℤ)
          - ((ComposedSystem.build KinematicPoint KinematicPoint
              none "right").occupied_idx.length : ℤ)) :=
  ⟨rfl, composed_dims KinematicPoint KinematicPoint none "right" _ rfl⟩

/-! ## C9: `ComposedSystem.reset()` is a no-op -/

/-- C9: `ComposedSystem.reset` (whose body is `pass`) leaves the whole
composed-system state unchanged — in particular both wrapped systems'
parameter mappings, the routing arrays and both permutations. -/
theorem composed_reset_noop (c : ComposedSys) :
    ComposedSystem.reset c = c
    ∧ (ComposedSystem.reset c).sys_left.parameters = c.sys_left.parameters
    ∧ (ComposedSystem.reset c).sys_right.parameters = c.sys_right.parameters
    ∧ (ComposedSystem.reset c).rout_idx = c.rout_idx
    ∧ (ComposedSystem.reset c).occupied_idx = c.occupied_idx
    ∧ (ComposedSystem.reset c).free_right_input_indices = c.free_right_input_indices
    ∧ (ComposedSystem.reset c).forward_permutation = c.forward_permutation
    ∧ (ComposedSystem.reset c).inverse_permutation = c.inverse_permutation :=
  ⟨rfl, rfl, rfl, rfl, rfl, rfl, rfl, rfl⟩

/-! ## C6: the scatter-computed inverse permutation -/

/-- Scattering preserves the length of the written vector. -/
theorem scatter_length {α : Type} (idx : List ℕ) (base vals : List α) :
    (scatter base idx vals).length = base.length := by
  induction idx generalizing base vals with
  | nil => simp [scatter]
  | cons i is ih =>
    cases vals with
    | nil => simp [scatter]
    | cons v vs =>
      simp only [scatter]
      rw [ih (base.set i v) vs, List.length_set base i v]

/-- A position not mentioned in the index vector is untouched by `scatter`. -/
theorem scatter_getD_not_mem {α : Type} (idx : List ℕ) (base vals : List α)
    (j : ℕ) (hj : j ∉ idx) (d : α) :
    (scatter base idx vals).getD j d = base.getD j d := by
  induction idx generalizing base vals with
  | nil => simp [scatter]
  | cons i is ih =>
    cases vals with
    | nil => simp [scatter]
    | cons v vs =>
      have hji : i ≠ j := fun h => hj (h ▸ List.mem_cons_self i is)
      have hjis : j ∉ is := fun h => hj (List.mem_cons_of_mem i h)
      simp only [scatter]
      rw [ih (base.set i v) vs hjis,
          List.getD_eq_getElem?_getD, List.getD_eq_getElem?_getD,
          List.getElem?_set_ne hji]

/-- With pairwise distinct in-range indices, position `idx[k]` of the
scattered vector holds `vals[k]`. -/
theorem scatter_getD_at_index {α : Type} (idx : List ℕ) (base vals : List α)
    (hnodup : idx.Nodup) (k : ℕ) (hk : k < idx.length) (hkv : k < vals.length)
    (hb : idx.getD k 0 < base.length) (d : α) :
    (scatter base idx vals).getD (idx.getD k 0) d = vals.getD k d := by
  induction idx generalizing base vals k with
  | nil => exact absurd hk (by simp)
  | cons i is ih =>
    cases vals with
    | nil => exact absurd hkv (by simp)
    | cons v vs =>
      cases k with
      | zero =>
        have hi_not : i ∉ is := (List.nodup_cons.mp hnodup).1
        have hib : i < base.length := by simpa using hb
        simp only [scatter]
        rw [List.getD_cons_zero, List.getD_cons_zero,
            scatter_getD_not_mem is (base.set i v) vs i hi_not d,
            List.getD_eq_getElem?_getD,
            List.getElem?_set_self (by simpa using hib)]
        rfl
      | succ k =>
        have hnd : is.Nodup := (List.nodup_cons.mp hnodup).2
        simp only [scatter]
        rw [List.getD_cons_succ, List.getD_cons_succ]
        exact ih (base.set i v) vs hnd k (by simpa using hk) (by simpa using hkv)
          (by rw [List.length_set]; simpa using hb)

/-- C6: after `permute_state(P)` with a permutation `P` of `range(n)`, the
derived inverse satisfies `inverse_permutation[P[i]] == i` for every
`i < n`. -/
theorem permute_state_inverse (c : ComposedSys) (p : List ℕ)
    (hnodup : p.Nodup) (hbound : ∀ x ∈ p, x < p.length)
    (i : ℕ) (hi : i < p.length) :
    ((ComposedSystem.permute_state c p).inverse_permutation).getD
      (((ComposedSystem.permute_state c p).forward_permutation).getD i 0) 0 = i := by
  show (ComposedSystem.get_inverse_permutation p).getD (p.getD i 0) 0 = i
  unfold ComposedSystem.get_inverse_permutation
  have hmem : p.getD i 0 ∈ p := by
    rw [List.getD_eq_getElem?_getD, List.getElem?_eq_getElem hi]
    exact List.getElem_mem hi
  have hb : p.getD i 0 < (List.replicate p.length (0 : ℕ)).length := by
    rw [List.length_replicate]
    exact hbound _ hmem
  rw [scatter_getD_at_index p (List.replicate p.length 0) (List.range p.length)
      hnodup i hi (by simpa using hi) hb 0,
    List.getD_eq_getElem?_getD, List.getElem?_range hi]
  rfl

/-- Witness for C6 at the permutation `[2,0,1]` of `range(3)` applied to a
composition of two kinematic points, checked at `i = 1`. -/
theorem permute_state_inverse_witness :
    ([2, 0, 1] : List ℕ).Nodup
    ∧ (∀ x ∈ ([2, 0, 1] : List ℕ), x < ([2, 0, 1] : List ℕ).length)
    ∧ 1 < ([2, 0, 1] : List ℕ).length
    ∧ ((ComposedSystem.permute_state
          (ComposedSystem.build KinematicPoint KinematicPoint none "right")
          [2, 0, 1]).inverse_permutation).getD
        (((ComposedSystem.permute_state
          (ComposedSystem.build KinematicPoint KinematicPoint none "right")
          [2, 0, 1]).forward_permutation).getD 1 0) 0 = 1 :=
  ⟨by decide, by decide, by decide,
    permute_state_inverse (ComposedSystem.build KinematicPoint KinematicPoint none "right")
      [2, 0, 1] (by decide) (by decide) 1 (by decide)⟩

/-! ## C7: `force_row` / `force_column` round-trips -/

/-- Flat-mapping singletons is mapping. -/
theorem flatMap_single {α β : Type} (l : List α) (f : α → β) :
    l.flatMap (fun x => [f x]) = l.map f := by
  induction l with
  | nil => rfl
  | cons a t ih => simp [List.flatMap_cons, ih]

/-- Reading every position of a list in order reproduces the list. -/
theorem map_getD_range (data : List ℚ) :
    (List.range data.length).map (fun j => data.getD j 0) = data := by
  apply List.ext_getElem
  · simp
  · intro i h1 h2
    simp [List.getD_eq_getElem?_getD, List.getElem?_eq_getElem h2]

/-- `range 1` is the singleton `[0]`. -/
theorem range_one_eq : List.range 1 = [0] := rfl

/-- Transposing a `1 × n` row gives the `n × 1` column with the same data. -/
theorem transpose_row (data : List ℚ) :
    Arr2.transpose ⟨1, data.length, data⟩ = ⟨data.length, 1, data⟩ := by
  have hdata : (List.range data.length).flatMap
      (fun j => (List.range 1).map (fun i => data.getD (i * data.length + j) 0))
      = data := by
    simp only [range_one_eq, List.map_cons, List.map_nil, Nat.zero_mul, Nat.zero_add]
    rw [flatMap_single, map_getD_range]
  show Arr2.mk data.length 1 ((List.range data.length).flatMap
      (fun j => (List.range 1).map (fun i => data.getD (i * data.length + j) 0)))
    = Arr2.mk data.length 1 data
  rw [hdata]

/-- Transposing an `n × 1` column gives the `1 × n` row with the same data. -/
theorem transpose_col (data : List ℚ) :
    Arr2.transpose ⟨data.length, 1, data⟩ = ⟨1, data.length, data⟩ := by
  have hdata : (List.range 1).flatMap
      (fun j => (List.range data.length).map (fun i => data.getD (i * 1 + j) 0))
      = data := by
    simp only [range_one_eq, List.flatMap_cons, List.flatMap_nil, List.append_nil,
      Nat.mul_one, Nat.add_zero]
    rw [map_getD_range]
  show Arr2.mk 1 data.length ((List.range 1).flatMap
      (fun j => (List.range data.length).map (fun i => data.getD (i * 1 + j) 0)))
    = Arr2.mk 1 data.length data
  rw [hdata]

/-- C7 counterexample: for the row vector `[[0, 1]]` of shape `[1, 2]`,
`force_column(force_row(v))` is the `2 × 1` column `[[0], [1]]`, not `v`,
on both the NumPy and the CasADi branch. -/
theorem force_column_force_row_not_id :
    force_column (force_row (Arr2.mk 1 2 [0, 1]) RCType.NUMPY) RCType.NUMPY
      ≠ Arr2.mk 1 2 [0, 1]
    ∧ force_column (force_row (Arr2.mk 1 2 [0, 1]) RCType.CASADI) RCType.CASADI
      ≠ Arr2.mk 1 2 [0, 1]
    ∧ force_column (force_row (Arr2.mk 1 2 [0, 1]) RCType.NUMPY) RCType.NUMPY
      = Arr2.mk 2 1 [0, 1] := by
  refine ⟨by decide, by decide, by decide⟩

/-- C7 amended: the round-trip holds in the opposite composition order —
for every well-formed row vector `v` of shape `[1, n]` and every backend,
`force_row(force_column(v)) == v`. -/
theorem force_row_force_column_id (v : Arr2) (rc : RCType)
    (h1 : v.rows = 1) (h2 : v.data.length = v.cols) :
    force_row (force_column v rc) rc = v := by
  obtain ⟨r, c, data⟩ := v
  have hr : r = 1 := h1
  have hd : data.length = c := h2
  subst hr
  subst hd
  cases rc with
  | NUMPY => simp [force_column, force_row]
  | TORCH => simp [force_column, force_row]
  | CASADI =>
    by_cases hc : 1 < data.length
    · have e1 : force_column ⟨1, data.length, data⟩ RCType.CASADI
          = Arr2.transpose ⟨1, data.length, data⟩ := by
        simp [force_column, hc]
      have e2 : force_row ⟨data.length, 1, data⟩ RCType.CASADI
          = Arr2.transpose ⟨data.length, 1, data⟩ := by
        simp [force_row, hc]
      rw [e1, transpose_row, e2, transpose_col]
    · have hcond1 : ¬((⟨1, data.length, data⟩ : Arr2).cols
          > (⟨1, data.length, data⟩ : Arr2).rows
          ∧ (⟨1, data.length, data⟩ : Arr2).rows = 1) := by
        show ¬(data.length > 1 ∧ 1 = 1)
        omega
      have e1 : force_column ⟨1, data.length, data⟩ RCType.CASADI
          = ⟨1, data.length, data⟩ := by
        unfold force_column
        rw [if_pos rfl, if_neg hcond1]
      have hcond2 : ¬((⟨1, data.length, data⟩ : Arr2).rows
          > (⟨1, data.length, data⟩ : Arr2).cols
          ∧ (⟨1, data.length, data⟩ : Arr2).cols = 1) := by
        show ¬(1 > data.length ∧ data.length = 1)
        omega
      have e2 : force_row ⟨1, data.length, data⟩ RCType.CASADI
          = ⟨1, data.length, data⟩ := by
        unfold force_row
        rw [if_pos rfl, if_neg hcond2]
      rw [e1, e2]

/-- Witness for the amended C7 at the row vector `[[3, 4]]`. -/
theorem force_row_force_column_id_witness :
    (Arr2.mk 1 2 [3, 4]).rows = 1
    ∧ (Arr2.mk 1 2 [3, 4]).data.length = (Arr2.mk 1 2 [3, 4]).cols
    ∧ force_row (force_column (Arr2.mk 1 2 [3, 4]) RCType.NUMPY) RCType.NUMPY
        = Arr2.mk 1 2 [3, 4] :=
  ⟨rfl, rfl, force_row_force_column_id (Arr2.mk 1 2 [3, 4]) RCType.NUMPY rfl rfl⟩

/-! ## C5: integration failures are recovered, not propagated -/

/-- C5: whenever the active solver's `step()` raises (fails to complete a
step) inside `do_sim_step()`, the simulator catches it, performs an
implicit `reset()` and returns the sentinel `-1` instead of propagating the
exception; after the reset its `time` equals `time_start`. -/
theorem do_sim_step_integration_failure
    (integr : List ℚ → List ℚ → List ℚ) (sim : SimState)
    (hdiff : sim.system_type = "diff_eqn")
    (hfail : (CasADiSolver.step integr sim.sysInputs sim.solver).isOk = false) :
    Simulator.do_sim_step integr sim = Except.ok (Simulator.reset sim, some (-1))
    ∧ (Simulator.reset sim).time = sim.time_start := by
  constructor
  · unfold Simulator.do_sim_step
    rw [if_pos hdiff]
    cases h : CasADiSolver.step integr sim.sysInputs sim.solver with
    | error e => rfl
    | ok s2 =>
        rw [h] at hfail
        simp [Except.isOk, Except.toBool] at hfail
  · unfold Simulator.reset
    rw [if_pos hdiff]

/-- Witness for C5 at a concrete finished simulator. -/
theorem do_sim_step_integration_failure_witness :
    simExample.system_type = "diff_eqn"
    ∧ (CasADiSolver.step integrExample simExample.sysInputs simExample.solver).isOk
        = false
    ∧ (Simulator.do_sim_step integrExample simExample
          = Except.ok (Simulator.reset simExample, some (-1))
      ∧ (Simulator.reset simExample).time = simExample.time_start) :=
  ⟨rfl, by decide,
    do_sim_step_integration_failure integrExample simExample rfl (by decide)⟩

/-! ## C10: a finished CasADi solver reports episode completion through the
failure sentinel -/

/-- C10: when the CasADi solver's time has reached or passed `time_final`,
`step()` raises `RuntimeError("An attempt to step with a finished solver")`,
which `do_sim_step()` catches by resetting the simulator and returning the
sentinel `-1`; the reset restores `time` to `time_start` and `state` to
`state_init`, so the state is not advanced. -/
theorem finished_solver_sentinel
    (integr : List ℚ → List ℚ → List ℚ) (sim : SimState)
    (hdiff : sim.system_type = "diff_eqn")
    (hfin : sim.solver.time ≥ sim.solver.time_final) :
    CasADiSolver.step integr sim.sysInputs sim.solver
      = Except.error "An attempt to step with a finished solver"
    ∧ Simulator.do_sim_step integr sim = Except.ok (Simulator.reset sim, some (-1))
    ∧ (Simulator.reset sim).time = sim.time_start
    ∧ (Simulator.reset sim).state = sim.state_init := by
  have hstep : CasADiSolver.step integr sim.sysInputs sim.solver
      = Except.error "An attempt to step with a finished solver" := by
    unfold CasADiSolver.step
    rw [if_pos hfin]
  refine ⟨hstep, ?_, ?_, ?_⟩
  · unfold Simulator.do_sim_step
    rw [if_pos hdiff, hstep]
  · unfold Simulator.reset
    rw [if_pos hdiff]
  · unfold Simulator.reset
    rw [if_pos hdiff]

/-- Witness for C10 at a concrete simulator whose solver clock is past
`time_final`. -/
theorem finished_solver_sentinel_witness :
    simExample2.system_type = "diff_eqn"
    ∧ simExample2.solver.time ≥ simExample2.solver.time_final
    ∧ (CasADiSolver.step integrExample simExample2.sysInputs simExample2.solver
          = Except.error "An attempt to step with a finished solver"
      ∧ Simulator.do_sim_step integrExample simExample2
          = Except.ok (Simulator.reset simExample2, some (-1))
      ∧ (Simulator.reset simExample2).time = simExample2.time_start
      ∧ (Simulator.reset simExample2).state = simExample2.state_init) :=
  ⟨rfl, by decide,
    finished_solver_sentinel integrExample simExample2 rfl (by decide)⟩
